import Mathlib

/-
Verification of the on-disk memoization cache of `barktools/base_utils.py`
(`simple_hash_fun` and the `cache` decorator's `wrapper`), via a shallow
embedding in Lean 4.

Python values reaching the hash function are represented by their observable
rendering: the code only ever applies `str(...)` (and, inside the dict
rendering, `repr(...)`) to them.  Machine words of SHA-1 are `Nat` reduced
modulo 2 ^ 32.  The filesystem is a pure state threaded through the wrapper.
-/

-- ## SHA-1 (embedding of `hashlib.sha1(...).hexdigest()`)

/-- Reduce to a 32-bit word, as all SHA-1 arithmetic is modulo 2 ^ 32. -/
def w32 (n : Nat) : Nat := n % 4294967296

/-- Rotate a 32-bit word left by `s` bits. -/
def rotl (s n : Nat) : Nat := ((n <<< s) ||| (n >>> (32 - s))) % 4294967296

/-- UTF-8 bytes of one Unicode code point (the four standard cases). -/
def utf8Bytes (c : Char) : List Nat :=
  let n := c.toNat
  if n < 128 then [n]
  else if n < 2048 then [192 ||| (n >>> 6), 128 ||| (n &&& 63)]
  else if n < 65536 then
    [224 ||| (n >>> 12), 128 ||| ((n >>> 6) &&& 63), 128 ||| (n &&& 63)]
  else
    [240 ||| (n >>> 18), 128 ||| ((n >>> 12) &&& 63),
     128 ||| ((n >>> 6) &&& 63), 128 ||| (n &&& 63)]

/-- UTF-8 encoding of a string, modelling Python's `str.encode()`. -/
def utf8Encode (s : String) : List Nat := s.data.flatMap utf8Bytes

/-- Big-endian 8-byte rendering of a message bit length. -/
def be64 (n : Nat) : List Nat :=
  [(n >>> 56) &&& 255, (n >>> 48) &&& 255, (n >>> 40) &&& 255, (n >>> 32) &&& 255,
   (n >>> 24) &&& 255, (n >>> 16) &&& 255, (n >>> 8) &&& 255, n &&& 255]

/-- SHA-1 padding: append 0x80, zero bytes to 56 mod 64, then the bit length. -/
def sha1Pad (msg : List Nat) : List Nat :=
  msg ++ 128 :: List.replicate ((119 - (msg.length % 64)) % 64) 0
      ++ be64 (msg.length * 8)

/-- Pack bytes into big-endian 32-bit words. -/
def toW32s : List Nat → List Nat
  | a :: b :: c :: d :: rest => ((a <<< 24) ||| (b <<< 16) ||| (c <<< 8) ||| d) :: toW32s rest
  | _ => []

/-- Split a word list into blocks of 16 words; `fuel` bounds the recursion. -/
def chunk16 : Nat → List Nat → List (List Nat)
  | 0, _ => []
  | _ + 1, [] => []
  | fuel + 1, a :: l => (a :: l.take 15) :: chunk16 fuel (l.drop 15)

/-- Extend the (reversed) message schedule by `k` further words. -/
def sha1Extend : Nat → List Nat → List Nat
  | 0, acc => acc.reverse
  | k + 1, acc =>
    sha1Extend k
      (rotl 1 ((acc.getD 2 0) ^^^ (acc.getD 7 0) ^^^ (acc.getD 13 0) ^^^ (acc.getD 15 0)) :: acc)

/-- Round function of SHA-1. -/
def sha1F (t b c d : Nat) : Nat :=
  if t < 20 then (b &&& c) ||| ((4294967295 ^^^ b) &&& d)
  else if t < 40 then b ^^^ c ^^^ d
  else if t < 60 then (b &&& c) ||| (b &&& d) ||| (c &&& d)
  else b ^^^ c ^^^ d

/-- Round constant of SHA-1. -/
def sha1K (t : Nat) : Nat :=
  if t < 20 then 1518500249
  else if t < 40 then 1859775393
  else if t < 60 then 2400959708
  else 3395469782

/-- The 80 compression rounds, one per schedule word. -/
def sha1Rounds : Nat → Nat × Nat × Nat × Nat × Nat → List Nat → Nat × Nat × Nat × Nat × Nat
  | _, st, [] => st
  | t, (a, b, c, d, e), w :: ws =>
    sha1Rounds (t + 1) (w32 (rotl 5 a + sha1F t b c d + e + sha1K t + w), a, rotl 30 b, c, d) ws

/-- Process one 16-word block into the running hash state. -/
def sha1Block (h : Nat × Nat × Nat × Nat × Nat) (wds : List Nat) : Nat × Nat × Nat × Nat × Nat :=
  match h, sha1Rounds 0 h (sha1Extend 64 wds.reverse) with
  | (h0, h1, h2, h3, h4), (a, b, c, d, e) =>
    (w32 (h0 + a), w32 (h1 + b), w32 (h2 + c), w32 (h3 + d), w32 (h4 + e))

/-- SHA-1 initial state. -/
def sha1Init : Nat × Nat × Nat × Nat × Nat :=
  (1732584193, 4023233417, 2562383102, 271733878, 3285377520)

/-- SHA-1 of a byte sequence: the five 32-bit state words. -/
def sha1 (msg : List Nat) : Nat × Nat × Nat × Nat × Nat :=
  (chunk16 (msg.length + 9) (toW32s (sha1Pad msg))).foldl sha1Block sha1Init

/-- Lowercase hexadecimal digit. -/
def hexChar (n : Nat) : Char :=
  if n < 10 then Char.ofNat (48 + n) else Char.ofNat (87 + n)

/-- Eight-digit lowercase hexadecimal rendering of a 32-bit word. -/
def hex8 (n : Nat) : String :=
  String.mk ((List.range 8).map (fun i => hexChar ((n >>> ((7 - i) * 4)) &&& 15)))

/-- Hexadecimal SHA-1 digest, modelling `hashlib.sha1(bs).hexdigest()`. -/
def sha1Hex (msg : List Nat) : String :=
  match sha1 msg with
  | (h0, h1, h2, h3, h4) => hex8 h0 ++ hex8 h1 ++ hex8 h2 ++ hex8 h3 ++ hex8 h4

-- ## Python argument values and the default hash function

/-- A Python object as observed by the cache code: the code applies only
`str(...)` to positional arguments and (inside the dict rendering of the
keyword mapping) `repr(...)` to keyword values. -/
structure PyVal where
  str : String
  repr : String

/-- `str(kwargs)` for a Python keyword dict: keys are identifier strings,
values are rendered with `repr`. -/
def dictStr (kwargs : List (String × PyVal)) : String :=
  "\x7b" ++ String.intercalate ", "
    (kwargs.map (fun kv => "\x27" ++ kv.1 ++ "\x27: " ++ kv.2.repr)) ++ "\x7d"

/-- Embedding of `simple_hash_fun` (base_utils.py):
`hashlib.sha1(("§".join(str(arg) for arg in args) + str(kwargs)).encode()).hexdigest()`. -/
def simple_hash_fun (args : List PyVal) (kwargs : List (String × PyVal)) : String :=
  sha1Hex (utf8Encode (String.intercalate "§" (args.map PyVal.str) ++ dictStr kwargs))

-- ## Filesystem model and the `cache` decorator's `wrapper`

/-- A filesystem path, as its list of components. -/
abbrev FPath := List String

/-- File contents, as a byte sequence. -/
abbrev Bytes := List Nat

/-- The filesystem visible to the wrapper: regular files with their contents,
and the set of directories. -/
structure FS where
  files : List (FPath × Bytes)
  dirs : List FPath

/-- Look a path up among the files; the most recent write is found first. -/
def findBytes : List (FPath × Bytes) → FPath → Option Bytes
  | [], _ => none
  | (q, b) :: rest, p => if q = p then some b else findBytes rest p

/-- Contents of the regular file at `p`, if one exists. -/
def FS.readFile (fs : FS) (p : FPath) : Option Bytes := findBytes fs.files p

/-- Embedding of `pathlib.Path.is_file`. -/
def FS.is_file (fs : FS) (p : FPath) : Bool := (fs.readFile p).isSome

/-- Embedding of `open(p, "wb")` followed by a full write of `b`. -/
def FS.writeFile (fs : FS) (p : FPath) (b : Bytes) : FS :=
  { fs with files := (p, b) :: fs.files }

/-- Every initial segment of a path: the path itself and all its ancestors. -/
def prefixesOf (p : FPath) : List FPath :=
  (List.range (p.length + 1)).map (fun k => p.take k)

/-- Embedding of `p.mkdir(parents=True, exist_ok=True)`: the directory and all
missing ancestors come into existence. -/
def FS.mkdirParents (fs : FS) (p : FPath) : FS :=
  { fs with dirs := prefixesOf p ++ fs.dirs }

/-- Embedding of `cache_id_ = cache_id if cache_id else fun.__name__`: the fall
back to the function name triggers on any falsy `cache_id`, i.e. on `None` and
on the empty string. -/
def resolveCacheId (cache_id : Option String) (funName : String) : String :=
  match cache_id with
  | none => funName
  | some s => if s = "" then funName else s

/-- Embedding of `cache_fp = cache_dir / cache_id_ / f"{hash}.cache"`. -/
def cacheFp (cache_dir : FPath) (cache_id_ : String) (hash : String) : FPath :=
  cache_dir ++ [cache_id_, hash ++ ".cache"]

/-- What one run of `dump_fn(output, f)` does to the open file handle: the
bytes it wrote before returning or raising, and the exception it raised, if
any.  A failed dump can thus leave a partial (possibly empty) write behind. -/
structure DumpResult where
  written : Bytes
  error : Option String

/-- The configuration captured by the `cache(...)` decorator call.  `dump_fn`
serializes a result onto an open file handle (and may fail part-way through);
`load_fn` deserializes bytes (and may fail). -/
structure CacheConfig (α : Type) where
  hash_fun : List PyVal → List (String × PyVal) → String
  cache_dir : FPath
  cache_id : Option String
  dump_fn : α → DumpResult
  load_fn : Bytes → Except String α

/-- Observable result of one call of the wrapped function: the returned value
or propagated exception, the filesystem afterwards, and how many times the
underlying computation `f` was invoked. -/
structure WrapOutput (α : Type) where
  outcome : Except String α
  fs : FS
  fCalls : Nat

/-- Embedding of the `wrapper` closure inside `cache._decorator`.  The
underlying computation is modelled by the outcome `f` of invoking it; each
textual call site of `fun(*args, **kwargs)` in the source is mirrored by an
`fCalls` increment.  On the store path, `open(cache_fp, "wb")` creates and
truncates the entry file before `dump_fn` runs, so a dump that raises still
leaves the entry file behind, holding whatever bytes were written first. -/
def wrapper {α : Type} (cfg : CacheConfig α) (funName : String) (f : Except String α)
    (args : List PyVal) (kwargs : List (String × PyVal)) (fs : FS) : WrapOutput α :=
  let cache_id_ := resolveCacheId cfg.cache_id funName
  let hash := cfg.hash_fun args kwargs
  let cache_fp := cacheFp cfg.cache_dir cache_id_ hash
  if fs.is_file cache_fp then
    match fs.readFile cache_fp with
    | some contents => { outcome := cfg.load_fn contents, fs := fs, fCalls := 0 }
    | none => { outcome := Except.error "FileNotFoundError", fs := fs, fCalls := 0 }
  else
    match f with
    | Except.error e => { outcome := Except.error e, fs := fs, fCalls := 1 }
    | Except.ok output =>
      let fs1 := fs.mkdirParents cache_fp.dropLast
      let fs2 := fs1.writeFile cache_fp []
      let dr := cfg.dump_fn output
      let fs3 := fs2.writeFile cache_fp dr.written
      match dr.error with
      | some e => { outcome := Except.error e, fs := fs3, fCalls := 1 }
      | none => { outcome := Except.ok output, fs := fs3, fCalls := 1 }

-- ## Validation of the SHA-1 embedding against FIPS 180 test vectors

set_option maxRecDepth 100000 in
theorem sha1Hex_vector_empty :
    sha1Hex (utf8Encode "") = "da39a3ee5e6b4b0d3255bfef95601890afd80709" := by decide

set_option maxRecDepth 100000 in
theorem sha1Hex_vector_abc :
    sha1Hex (utf8Encode "abc") = "a9993e364706816aba3e25717850c26c9cd0d89d" := by decide

set_option maxRecDepth 200000 in
theorem sha1Hex_vector_two_blocks :
    sha1Hex (utf8Encode "abcdbcdecdefdefgefghfghighijhijkijkljklmklmnlmnomnopnopq") =
      "84983e441c3bd26ebaae4aa1f95129e5e54670f1" := by decide

-- ## Shared concrete instances for witnesses

/-- A concrete configuration whose serializer succeeds. -/
def okCfg : CacheConfig Nat :=
  { hash_fun := fun _ _ => "k", cache_dir := [".cache"], cache_id := some "ns",
    dump_fn := fun n => ⟨[n], none⟩, load_fn := fun b => Except.ok b.length }

/-- A filesystem already holding the entry `okCfg` addresses. -/
def hitFS : FS :=
  ⟨[([".cache", "ns", "k.cache"], [7, 7])], [[".cache"], [".cache", "ns"]]⟩

/-- The empty filesystem. -/
def emptyFS : FS := ⟨[], []⟩

/-- A concrete configuration whose serializer always raises after writing
nothing. -/
def failCfg : CacheConfig Nat :=
  { hash_fun := fun _ _ => "k", cache_dir := [".cache"], cache_id := none,
    dump_fn := fun _ => ⟨[], some "disk full"⟩, load_fn := fun b => Except.ok b.length }

-- ## Claim theorems

/-- Claim C1: when the entry file at `cache_dir / namespace / (key ++ ".cache")`
exists, the wrapper opens it, deserializes its contents with `load_fn`, returns
that value, and does not invoke the underlying computation `f`. -/
theorem cache_hit_loads_and_skips_f {α : Type} (cfg : CacheConfig α) (funName : String)
    (f : Except String α) (args : List PyVal) (kwargs : List (String × PyVal))
    (fs : FS) (b : Bytes)
    (h : fs.readFile
        (cacheFp cfg.cache_dir (resolveCacheId cfg.cache_id funName) (cfg.hash_fun args kwargs))
        = some b) :
    wrapper cfg funName f args kwargs fs = ⟨cfg.load_fn b, fs, 0⟩ := by
  simp [wrapper, FS.is_file, h]

theorem cache_hit_loads_and_skips_f_witness :
    wrapper okCfg "f" (Except.ok 0) [] [] hitFS = ⟨Except.ok 2, hitFS, 0⟩ :=
  cache_hit_loads_and_skips_f okCfg "f" (Except.ok 0) [] [] hitFS [7, 7] (by decide)

/-- Claim C10: on a cache hit the wrapper performs no filesystem modification:
the filesystem state after the call equals the state before it. -/
theorem cache_hit_preserves_fs {α : Type} (cfg : CacheConfig α) (funName : String)
    (f : Except String α) (args : List PyVal) (kwargs : List (String × PyVal))
    (fs : FS) (b : Bytes)
    (h : fs.readFile
        (cacheFp cfg.cache_dir (resolveCacheId cfg.cache_id funName) (cfg.hash_fun args kwargs))
        = some b) :
    (wrapper cfg funName f args kwargs fs).fs = fs := by
  simp [wrapper, FS.is_file, h]

theorem cache_hit_preserves_fs_witness :
    (wrapper okCfg "g" (Except.ok 3) [] [] hitFS).fs = hitFS :=
  cache_hit_preserves_fs okCfg "g" (Except.ok 3) [] [] hitFS [7, 7] (by decide)

/-- Claim C9: with `cache_id` equal to the empty string the wrapper behaves
exactly as if `cache_id` had not been supplied: the namespace falls back to the
wrapped function's own name on any falsy `cache_id`. -/
theorem empty_cache_id_uses_fun_name {α : Type} (cfg : CacheConfig α) (funName : String)
    (f : Except String α) (args : List PyVal) (kwargs : List (String × PyVal)) (fs : FS) :
    resolveCacheId (some "") funName = resolveCacheId none funName ∧
    wrapper { cfg with cache_id := some "" } funName f args kwargs fs =
      wrapper { cfg with cache_id := none } funName f args kwargs fs :=
  ⟨rfl, rfl⟩

/-- Claim C4: the default hash function returns the hexadecimal SHA-1 digest of
the UTF-8 encoding of the separator-joined string forms of the positional
arguments followed by the string form of the keyword mapping. -/
theorem default_hash_is_sha1_of_joined_args (args : List PyVal)
    (kwargs : List (String × PyVal)) :
    simple_hash_fun args kwargs =
      sha1Hex (utf8Encode (String.intercalate "§" (args.map PyVal.str) ++ dictStr kwargs)) := rfl

/-- Claim C8: two calls whose positional arguments have equal string forms and
whose keyword mappings have equal string forms receive the same cache key. -/
theorem equal_string_forms_equal_key (a1 a2 : List PyVal) (k1 k2 : List (String × PyVal))
    (ha : a1.map PyVal.str = a2.map PyVal.str) (hk : dictStr k1 = dictStr k2) :
    simple_hash_fun a1 k1 = simple_hash_fun a2 k2 := by
  unfold simple_hash_fun
  rw [ha, hk]

theorem equal_string_forms_equal_key_witness :
    simple_hash_fun [⟨"1", "one"⟩] [] = simple_hash_fun [⟨"1", "uno"⟩] [] :=
  equal_string_forms_equal_key [⟨"1", "one"⟩] [⟨"1", "uno"⟩] [] [] rfl rfl

/-- Claim C2: on a cache miss the wrapper invokes the computation once, creates
the namespace directory and any missing parents, serializes the result into the
entry path, and returns the result. -/
theorem cache_miss_computes_and_stores {α : Type} (cfg : CacheConfig α) (funName : String)
    (f : Except String α) (args : List PyVal) (kwargs : List (String × PyVal))
    (fs : FS) (v : α) (bs : Bytes) (p : FPath)
    (hp : p = cacheFp cfg.cache_dir (resolveCacheId cfg.cache_id funName)
        (cfg.hash_fun args kwargs))
    (hmiss : fs.readFile p = none) (hf : f = Except.ok v)
    (hdump : cfg.dump_fn v = ⟨bs, none⟩) :
    (wrapper cfg funName f args kwargs fs).outcome = Except.ok v ∧
    (wrapper cfg funName f args kwargs fs).fCalls = 1 ∧
    (wrapper cfg funName f args kwargs fs).fs.readFile p = some bs ∧
    ∀ k, k ≤ p.dropLast.length →
      p.dropLast.take k ∈ (wrapper cfg funName f args kwargs fs).fs.dirs := by
  subst hp hf
  have hred : wrapper cfg funName (Except.ok v) args kwargs fs =
      ⟨Except.ok v,
        ((fs.mkdirParents ((cacheFp cfg.cache_dir (resolveCacheId cfg.cache_id funName)
          (cfg.hash_fun args kwargs)).dropLast)).writeFile
          (cacheFp cfg.cache_dir (resolveCacheId cfg.cache_id funName)
            (cfg.hash_fun args kwargs)) []).writeFile
          (cacheFp cfg.cache_dir (resolveCacheId cfg.cache_id funName)
            (cfg.hash_fun args kwargs)) bs, 1⟩ := by
    simp [wrapper, FS.is_file, hmiss, hdump]
  rw [hred]
  refine ⟨rfl, rfl, ?_, ?_⟩
  · simp [FS.writeFile, FS.readFile, findBytes]
  · intro k hk
    simp only [FS.writeFile, FS.mkdirParents, prefixesOf, List.mem_append, List.mem_map,
      List.mem_range]
    exact Or.inl ⟨k, Nat.lt_succ_of_le hk, rfl⟩

theorem cache_miss_computes_and_stores_witness :
    (wrapper okCfg "f" (Except.ok 5) [] [] emptyFS).outcome = Except.ok 5 ∧
    (wrapper okCfg "f" (Except.ok 5) [] [] emptyFS).fCalls = 1 ∧
    (wrapper okCfg "f" (Except.ok 5) [] [] emptyFS).fs.readFile
      [".cache", "ns", "k.cache"] = some [5] ∧
    ∀ k, k ≤ ([".cache", "ns", "k.cache"] : FPath).dropLast.length →
      ([".cache", "ns", "k.cache"] : FPath).dropLast.take k ∈
        (wrapper okCfg "f" (Except.ok 5) [] [] emptyFS).fs.dirs :=
  cache_miss_computes_and_stores okCfg "f" (Except.ok 5) [] [] emptyFS 5 [5]
    [".cache", "ns", "k.cache"] rfl rfl rfl rfl

/-- Claim C6: on a cache miss where the underlying computation raises, the
error propagates unchanged and the filesystem is untouched: no directory is
created and no entry is written. -/
theorem computation_error_propagates_no_write {α : Type} (cfg : CacheConfig α)
    (funName : String) (e : String) (args : List PyVal) (kwargs : List (String × PyVal))
    (fs : FS)
    (hmiss : fs.readFile
        (cacheFp cfg.cache_dir (resolveCacheId cfg.cache_id funName) (cfg.hash_fun args kwargs))
        = none) :
    wrapper cfg funName (Except.error e) args kwargs fs = ⟨Except.error e, fs, 1⟩ := by
  simp [wrapper, FS.is_file, hmiss]

theorem computation_error_propagates_no_write_witness :
    wrapper okCfg "f" (Except.error "boom") [] [] emptyFS =
      ⟨Except.error "boom", emptyFS, 1⟩ :=
  computation_error_propagates_no_write okCfg "f" "boom" [] [] emptyFS rfl

/-- Claim C3 (counterexample): with a failing serializer, the wrapped call does
not return the computed result; the write error replaces it. -/
theorem write_failure_result_lost_cx :
    (wrapper failCfg "f" (Except.ok 42) [] [] emptyFS).outcome = Except.error "disk full" ∧
    (wrapper failCfg "f" (Except.ok 42) [] [] emptyFS).outcome ≠ Except.ok 42 := by
  refine ⟨rfl, fun h => ?_⟩
  rw [show (wrapper failCfg "f" (Except.ok 42) [] [] emptyFS).outcome =
    Except.error "disk full" from rfl] at h
  exact Except.noConfusion h

/-- Claim C3 (amended): when the computation succeeds but serialization of the
result fails, the wrapper propagates the serialization error to the caller —
the computed result is not returned — and the entry file is left behind
holding only the bytes written before the failure (possibly none), since
`open(cache_fp, "wb")` created it before `dump_fn` raised. -/
theorem cache_write_failure_propagates {α : Type} (cfg : CacheConfig α) (funName : String)
    (args : List PyVal) (kwargs : List (String × PyVal)) (fs : FS) (v : α) (e : String)
    (bs : Bytes) (p : FPath)
    (hp : p = cacheFp cfg.cache_dir (resolveCacheId cfg.cache_id funName)
        (cfg.hash_fun args kwargs))
    (hmiss : fs.readFile p = none) (hdump : cfg.dump_fn v = ⟨bs, some e⟩) :
    (wrapper cfg funName (Except.ok v) args kwargs fs).outcome = Except.error e ∧
    (wrapper cfg funName (Except.ok v) args kwargs fs).outcome ≠ Except.ok v ∧
    (wrapper cfg funName (Except.ok v) args kwargs fs).fs.readFile p = some bs := by
  subst hp
  have hred : wrapper cfg funName (Except.ok v) args kwargs fs =
      ⟨Except.error e,
        ((fs.mkdirParents ((cacheFp cfg.cache_dir (resolveCacheId cfg.cache_id funName)
          (cfg.hash_fun args kwargs)).dropLast)).writeFile
          (cacheFp cfg.cache_dir (resolveCacheId cfg.cache_id funName)
            (cfg.hash_fun args kwargs)) []).writeFile
          (cacheFp cfg.cache_dir (resolveCacheId cfg.cache_id funName)
            (cfg.hash_fun args kwargs)) bs, 1⟩ := by
    simp [wrapper, FS.is_file, hmiss, hdump]
  rw [hred]
  exact ⟨rfl, fun h => Except.noConfusion h,
    by simp [FS.writeFile, FS.readFile, findBytes]⟩

theorem cache_write_failure_propagates_witness :
    (wrapper failCfg "f" (Except.ok 42) [] [] emptyFS).outcome = Except.error "disk full" ∧
    (wrapper failCfg "f" (Except.ok 42) [] [] emptyFS).outcome ≠ Except.ok 42 ∧
    (wrapper failCfg "f" (Except.ok 42) [] [] emptyFS).fs.readFile
      [".cache", "f", "k.cache"] = some [] :=
  cache_write_failure_propagates failCfg "f" [] [] emptyFS 42 "disk full" []
    [".cache", "f", "k.cache"] rfl rfl rfl

/-- Claim C5 (counterexample): the argument lists `["a§b"]` and `["a", "b"]`
have different string forms, yet the default hash function joins them to the
same hash input, so they receive the same cache key and the same entry file. -/
theorem default_hash_separator_collision_cx :
    (([⟨"a§b", "r1"⟩] : List PyVal).map PyVal.str ≠
      ([⟨"a", "r2"⟩, ⟨"b", "r3"⟩] : List PyVal).map PyVal.str) ∧
    simple_hash_fun [⟨"a§b", "r1"⟩] [] = simple_hash_fun [⟨"a", "r2"⟩, ⟨"b", "r3"⟩] [] ∧
    cacheFp [".cache"] "f" (simple_hash_fun [⟨"a§b", "r1"⟩] []) =
      cacheFp [".cache"] "f" (simple_hash_fun [⟨"a", "r2"⟩, ⟨"b", "r3"⟩] []) :=
  ⟨by decide, rfl, rfl⟩

/-- Claim C5 (amended): whenever the default hash function does produce
different cache keys for two calls, the calls use independent entry files:
their entry paths within the same namespace are distinct. -/
theorem distinct_keys_independent_entries (d : FPath) (n : String) (a1 a2 : List PyVal)
    (k1 k2 : List (String × PyVal))
    (h : simple_hash_fun a1 k1 ≠ simple_hash_fun a2 k2) :
    cacheFp d n (simple_hash_fun a1 k1) ≠ cacheFp d n (simple_hash_fun a2 k2) := by
  intro heq
  apply h
  unfold cacheFp at heq
  have h2 := List.append_cancel_left heq
  have h3 : simple_hash_fun a1 k1 ++ ".cache" = simple_hash_fun a2 k2 ++ ".cache" := by
    simpa using h2
  have h4 := congrArg String.data h3
  simp only [String.data_append] at h4
  exact String.ext (List.append_cancel_right h4)

set_option maxRecDepth 100000 in
theorem distinct_keys_independent_entries_witness :
    cacheFp [".cache"] "f" (simple_hash_fun [⟨"a", "ra"⟩] []) ≠
      cacheFp [".cache"] "f" (simple_hash_fun [⟨"b", "rb"⟩] []) :=
  distinct_keys_independent_entries [".cache"] "f" [⟨"a", "ra"⟩] [⟨"b", "rb"⟩] [] []
    (by decide)

/-- Claim C7: the entry path is `cache_dir / namespace / (key ++ ".cache")`,
where the namespace is the supplied `cache_id` (when non-empty) and otherwise
the wrapped function's own name; distinct namespaces give entry paths that
never collide for the same key. -/
theorem entry_path_formula_and_namespace_separation (d : FPath)
    (s fn key n1 n2 : String) (hs : s ≠ "") (hne : n1 ≠ n2) :
    resolveCacheId (some s) fn = s ∧
    resolveCacheId none fn = fn ∧
    cacheFp d s key = d ++ [s, key ++ ".cache"] ∧
    cacheFp d n1 key ≠ cacheFp d n2 key := by
  refine ⟨by simp [resolveCacheId, hs], rfl, rfl, fun heq => hne ?_⟩
  have h2 := List.append_cancel_left heq
  exact (List.cons_eq_cons.mp h2).1

theorem entry_path_formula_and_namespace_separation_witness :
    resolveCacheId (some "ns") "f" = "ns" ∧
    resolveCacheId none "f" = "f" ∧
    cacheFp [".cache"] "ns" "k" = [".cache"] ++ ["ns", "k" ++ ".cache"] ∧
    cacheFp [".cache"] "a" "k" ≠ cacheFp [".cache"] "b" "k" :=
  entry_path_formula_and_namespace_separation [".cache"] "ns" "f" "k" "a" "b"
    (by decide) (by decide)
